import Mathlib

/-!
Shallow embedding of `src/scripts/backfill_data.py` (class `YahooDataCollector`),
the backfill orchestration core of the Smart-Fantasy repository.

Modelling conventions:
* Calendar dates (`datetime` at midnight, and the `YYYY-MM-DD` strings that are
  in order-preserving bijection with them) are day numbers (`Int`, days since
  1970-01-01, computed by `daysFromCivil`).  `datetime.now()` may fall inside a
  day, so "now" is a `Rat`: whole part = the current date, fractional part =
  time of day.
* Python numbers produced by the stat coercion are `NumVal`: `int` results are
  `Int`, `float` results are exact rationals (every decimal literal the parser
  accepts is an exact rational; no claim depends on binary rounding).
* The external collaborators (Yahoo API, Supabase) are oracles supplied in an
  environment record; side effects (stats-fetch calls, upserts, printed
  diagnostics) are returned as explicit traces next to the Python return value.
* `try/except` bodies become total functions returning the caught-path value.
-/

namespace Backfill

/-- A coerced stat value: Python `int(...)` or `float(...)` result. -/
inductive NumVal where
  | intVal (n : Int)
  | floatVal (q : Rat)
deriving DecidableEq

/-- The Python test `v > 0` on a coerced value (all coerced values are
`int` or `float`, so the `isinstance` guard in the source always passes). -/
def NumVal.isPos : NumVal → Bool
  | .intVal n => 0 < n
  | .floatVal q => 0 < q

/-- Value of an ASCII digit string, most significant first. -/
def digitsVal (cs : List Char) : Nat :=
  cs.foldl (fun a c => a * 10 + (c.toNat - 48)) 0

/-- Nonempty, all ASCII digits. -/
def isDigits (cs : List Char) : Bool :=
  !cs.isEmpty && cs.all (fun c => c.isDigit)

/-- Python `c in s` on one character. -/
def pyContains (s : String) (c : Char) : Bool :=
  s.toList.contains c

/-- Python `s.strip()` (as `int`/`float` apply it): drop surrounding
whitespace; result as a character list. -/
def pyStrip (s : String) : List Char :=
  ((s.toList.dropWhile Char.isWhitespace).reverse.dropWhile
    Char.isWhitespace).reverse

/-- Python `int(s)` on a string: surrounding whitespace stripped, optional
sign, then digits.  (Underscore separators and non-ASCII digits, which CPython
also accepts, are not modelled; no stat payload in scope uses them.) -/
def pyInt (s : String) : Option Int :=
  match pyStrip s with
  | '+' :: rest => if isDigits rest then some (digitsVal rest) else none
  | '-' :: rest => if isDigits rest then some (-(digitsVal rest : Int)) else none
  | cs => if isDigits cs then some (digitsVal cs) else none

/-- Magnitude of a Python float literal in decimal form: digits with at most
one point, at least one digit overall.  (Exponent and inf/nan forms, which
CPython also accepts, are not modelled; the coercion only reaches `float` for
strings containing a point.) -/
def pyFloatMag (cs : List Char) : Option Rat :=
  match cs.splitOn '.' with
  | [ds] => if isDigits ds then some ((digitsVal ds : Int) : Rat) else none
  | [ip, fp] =>
      if ip.all (fun c => c.isDigit) && fp.all (fun c => c.isDigit) &&
          (!ip.isEmpty || !fp.isEmpty) then
        some (mkRat (digitsVal ip * 10 ^ fp.length + digitsVal fp : Nat)
          (10 ^ fp.length))
      else none
  | _ => none

/-- Python `float(s)` on a decimal string: strip, optional sign, magnitude. -/
def pyFloat (s : String) : Option Rat :=
  match pyStrip s with
  | '+' :: rest => pyFloatMag rest
  | '-' :: rest => (pyFloatMag rest).map (fun q => -q)
  | cs => pyFloatMag cs

/-- One coercion attempt of `get_player_stats_by_date`: if the raw text
contains a decimal point, `float(value)`, else `int(value)`; a
`ValueError`/`TypeError` (parse failure) yields `none` and the entry is
dropped. -/
def coerceStat (value : String) : Option NumVal :=
  if pyContains value '.' then (pyFloat value).map NumVal.floatVal
  else (pyInt value).map NumVal.intVal

/-- A Python dict from stat id to coerced value, with insertion order kept. -/
abbrev StatsDict := List (String × NumVal)

/-- Python `d[k] = v`: overwrite in place if the key exists, else append. -/
def dictInsert (d : StatsDict) (k : String) (v : NumVal) : StatsDict :=
  if d.any (fun p => p.1 == k) then
    d.map (fun p => if p.1 == k then (k, v) else p)
  else d ++ [(k, v)]

/-- Python `d.get(k)`. -/
def dictGet (d : StatsDict) (k : String) : Option NumVal :=
  (d.find? (fun p => p.1 == k)).map (fun p => p.2)

/-- The `stats_dict` loop of `get_player_stats_by_date`: each raw
`(stat_id, value)` entry is coerced; failures `continue` (entry dropped),
successes are stored under the stat id. -/
def buildStatsDict (entries : List (String × String)) : StatsDict :=
  entries.foldl
    (fun d e =>
      match coerceStat e.2 with
      | some v => dictInsert d e.1 v
      | none => d)
    []

/-- Outcome of the remote `yahoo.get_player_stats_by_date` call for one
(player key, date) pair, as the surrounding code distinguishes them:
the call raised; the returned object is falsy or lacks `player_stats`;
`player_stats` lacks a `stats` list; or the list of raw stat entries,
each a stat id (already stringified) with its textual value. -/
inductive FetchResult where
  | raises
  | noPayload
  | payloadNoStats
  | payload (entries : List (String × String))

/-- The stats dict the source builds from a fetch outcome (empty unless a
payload with a stats list arrived). -/
def statsDictOf : FetchResult → StatsDict
  | .payload entries => buildStatsDict entries
  | _ => []

/-- A GameRecord as returned by the fetcher (Python dict literal at the end of
`get_player_stats_by_date`). -/
structure GameLog where
  date : Int
  stats : StatsDict
  minutes_played : Option NumVal
  has_game : Bool
deriving DecidableEq

/-- Tail of `get_player_stats_by_date` after the dict is built: require some
coerced value strictly positive, extract minutes played at stat id "3". -/
def finishRecord (date : Int) (stats_dict : StatsDict) : Option GameLog :=
  let has_game := stats_dict.any (fun p => p.2.isPos)
  if has_game then
    some { date := date, stats := stats_dict,
           minutes_played := dictGet stats_dict "3", has_game := true }
  else none

/-- `get_player_stats_by_date(player_key, date)`: ask the remote oracle; a
raised exception or missing payload is caught and becomes `none`; otherwise
build the coerced dict and finish.  The whole body sits in one
`try/except Exception`, so the embedding is a total function. -/
def get_player_stats_by_date (fetch : String → Int → FetchResult)
    (player_key : String) (date : Int) : Option GameLog :=
  match fetch player_key date with
  | .raises => none
  | .noPayload => none
  | .payloadNoStats => finishRecord date []
  | .payload entries => finishRecord date (buildStatsDict entries)

/-- The row `save_game_log` hands to the Supabase upsert (the three nullable
enrichment fields are set explicitly to null). -/
structure UpsertRow where
  player_key : String
  player_name : String
  game_date : Int
  stats : StatsDict
  minutes_played : Option NumVal
  opponent : Option String
  home_away : Option String
  game_result : Option String
deriving DecidableEq

/-- `save_game_log(player_key, player_name, game_log)`: build the row and
upsert it on the (player_key, game_date) conflict key; a store failure is
caught, reported, and turned into `False`.  The store outcome comes from the
`upsertOk` oracle; the row is returned as the effect trace. -/
def save_game_log (upsertOk : UpsertRow → Bool) (player_key player_name : String)
    (game_log : GameLog) : Bool × UpsertRow :=
  let data : UpsertRow :=
    { player_key := player_key, player_name := player_name,
      game_date := game_log.date, stats := game_log.stats,
      minutes_played := game_log.minutes_played,
      opponent := none, home_away := none, game_result := none }
  (upsertOk data, data)

/-- `get_existing_dates(player_key)`: select the stored `game_date` rows for
the key and build a set from them (`List.dedup` keeps set cardinality and
membership); on a query failure, report and return the empty set.  Result:
the set and the diagnostics printed. -/
def get_existing_dates (queryResult : Except String (List Int)) :
    List Int × List String :=
  match queryResult with
  | .ok rows => (rows.dedup, [])
  | .error e => ([], ["existing-data query failed: " ++ e])

/-- The per-player counters dict built by `backfill_player`. -/
structure BatchStats where
  player_key : String
  player_name : String
  total_dates : Nat
  existing_games : Nat
  new_games : Nat
  api_calls : Nat
  errors : Nat
deriving DecidableEq

/-- External state one `backfill_player` run sees: the current `datetime.now()`
(whole part = today's date), the stored-dates query outcome for this player,
and the two remote oracles. -/
structure PlayerEnv where
  today : Rat
  queryResult : Except String (List Int)
  fetch : String → Int → FetchResult
  upsertOk : UpsertRow → Bool

/-- The date-generation loop of `backfill_player`: starting from `start`,
`while current <= end` append the date and step one day.  `endD` is the
already-clamped bound (a datetime, possibly with a time-of-day part). -/
def dateLoop (current : Int) (endD : Rat) : List Int :=
  if h : (current : Rat) ≤ endD then current :: dateLoop (current + 1) endD
  else []
termination_by (endD.floor + 1 - current).toNat
decreasing_by
  have hc : current ≤ endD.floor := Int.le_floor.mpr h
  omega

/-- Date generation of `backfill_player` lines 242-254: clamp the end bound to
`datetime.now()`, then run the while loop from the start date. -/
def dateRange (start_date end_date : Int) (today : Rat) : List Int :=
  let e : Rat := if (end_date : Rat) > today then today else (end_date : Rat)
  dateLoop start_date e

/-- One iteration of the `for date in dates` loop of `backfill_player`:
fetch, count the API call, and if a record came back persist it, counting a
new game or an error.  (The unconditional 200 ms sleep has no observable
value-level effect and is not modelled.)  The accumulator carries the
counters and the upsert trace. -/
def processDate (env : PlayerEnv) (player_key player_name : String)
    (acc : BatchStats × List UpsertRow) (date : Int) :
    BatchStats × List UpsertRow :=
  let game_log := get_player_stats_by_date env.fetch player_key date
  let stats := { acc.1 with api_calls := acc.1.api_calls + 1 }
  match game_log with
  | some gl =>
      let saved := save_game_log env.upsertOk player_key player_name gl
      if saved.1 then
        ({ stats with new_games := stats.new_games + 1 }, acc.2 ++ [saved.2])
      else
        ({ stats with errors := stats.errors + 1 }, acc.2 ++ [saved.2])
  | none => (stats, acc.2)

/-- What one `backfill_player` run returns and does: the counters dict
(the Python return value), plus effect traces — the dates passed to the stats
fetcher in order, the rows handed to the store upsert in order, and the
diagnostics printed. -/
structure BackfillResult where
  stats : BatchStats
  fetched_dates : List Int
  upserts : List UpsertRow
  diagnostics : List String

/-- `backfill_player(player_key, player_name, start_date, end_date,
skip_existing)`: generate the date range; when `skip_existing`, query the
stored dates and drop them from the candidates; build the counters dict
(`total_dates` = post-filter count, `existing_games` = size of the queried
set); return it at once when no candidate is left, else run the per-date
loop. -/
def backfill_player (env : PlayerEnv) (player_key player_name : String)
    (start_date end_date : Int) (skip_existing : Bool) : BackfillResult :=
  let dates0 := dateRange start_date end_date env.today
  let eq := if skip_existing then get_existing_dates env.queryResult
            else ([], [])
  let existing_dates := eq.1
  let dates := if skip_existing then
                 dates0.filter (fun d => !(existing_dates.contains d))
               else dates0
  let stats : BatchStats :=
    { player_key := player_key, player_name := player_name,
      total_dates := dates.length, existing_games := existing_dates.length,
      new_games := 0, api_calls := 0, errors := 0 }
  if dates.length = 0 then
    { stats := stats, fetched_dates := [], upserts := [], diagnostics := eq.2 }
  else
    let r := dates.foldl (processDate env player_key player_name) (stats, [])
    { stats := r.1, fetched_dates := dates, upserts := r.2, diagnostics := eq.2 }

/-- Days since 1970-01-01 of a proleptic-Gregorian civil date (the standard
era-based algorithm); used to give the `YYYY-MM-DD` strings of the `SEASONS`
table their day numbers. -/
def daysFromCivil (y m d : Int) : Int :=
  let y2 := if m ≤ 2 then y - 1 else y
  let era := (if 0 ≤ y2 then y2 else y2 - 399) / 400
  let yoe := y2 - era * 400
  let mp := (m + 9) % 12
  let doy := (153 * mp + 2) / 5 + d - 1
  let doe := yoe * 365 + yoe / 4 - yoe / 100 + doy
  era * 146097 + doe - 719468

/-- A season window from the module-level `SEASONS` table. -/
structure SeasonInfo where
  startD : Int
  endD : Int
deriving DecidableEq

/-- The module-level `SEASONS` table of `backfill_data.py`. -/
def SEASONS : List (String × SeasonInfo) :=
  [("2025-26", ⟨daysFromCivil 2025 10 21, daysFromCivil 2026 6 30⟩),
   ("2024-25", ⟨daysFromCivil 2024 10 22, daysFromCivil 2025 6 17⟩),
   ("2023-24", ⟨daysFromCivil 2023 10 24, daysFromCivil 2024 6 17⟩)]

/-- Python `season_key in SEASONS` / `SEASONS[season_key]` combined. -/
def seasonLookup (season_key : String) : Option SeasonInfo :=
  (SEASONS.find? (fun p => p.1 == season_key)).map (fun p => p.2)

/-- One roster entry as `get_league_players` builds it. -/
structure Player where
  player_key : String
  player_name : String
  team : String
  positions : List String
deriving DecidableEq

/-- `get_league_players()`: return the roster list from the league query; a
raised exception is caught and becomes the empty list plus a diagnostic. -/
def get_league_players (rosterResult : Except String (List Player)) :
    List Player × List String :=
  match rosterResult with
  | .ok ps => (ps, [])
  | .error e => ([], ["player list fetch failed: " ++ e])

/-- The `total_stats` dict of `backfill_season` (note: per-player
`total_dates` and `existing_games` have no counterpart here). -/
structure SeasonTotals where
  total_players : Nat
  processed_players : Nat
  total_new_games : Nat
  total_api_calls : Nat
  total_errors : Nat
deriving DecidableEq

/-- What one `backfill_season` run returns and does: the aggregate totals
(`none` when the run aborts before the player loop), how many roster fetches
were attempted, the per-player counter dicts in processing order, the upsert
trace, and the diagnostics printed. -/
structure SeasonResult where
  totals : Option SeasonTotals
  roster_fetches : Nat
  per_player : List BatchStats
  upserts : List UpsertRow
  diagnostics : List String

/-- External state one `backfill_season` run sees: `datetime.now()`, the
roster query outcome, the stored-dates query outcome per player key, and the
per-call remote oracles. -/
structure SeasonEnv where
  today : Rat
  rosterResult : Except String (List Player)
  queryResult : String → Except String (List Int)
  fetch : String → Int → FetchResult
  upsertOk : UpsertRow → Bool

/-- The `PlayerEnv` a season run hands to `backfill_player` for one key. -/
def SeasonEnv.playerEnv (env : SeasonEnv) (key : String) : PlayerEnv :=
  { today := env.today, queryResult := env.queryResult key,
    fetch := env.fetch, upsertOk := env.upsertOk }

/-- One iteration of the player loop of `backfill_season`: backfill the
player with `skip_existing := true` over the season window, then add the
`new_games` / `api_calls` / `errors` counters into the running totals and
bump `processed_players`. -/
def processPlayer (env : SeasonEnv) (info : SeasonInfo)
    (acc : SeasonTotals × List BatchStats × List UpsertRow × List String)
    (p : Player) :
    SeasonTotals × List BatchStats × List UpsertRow × List String :=
  let r := backfill_player (env.playerEnv p.player_key)
             p.player_key p.player_name info.startD info.endD true
  ({ acc.1 with
      processed_players := acc.1.processed_players + 1,
      total_new_games := acc.1.total_new_games + r.stats.new_games,
      total_api_calls := acc.1.total_api_calls + r.stats.api_calls,
      total_errors := acc.1.total_errors + r.stats.errors },
   acc.2.1 ++ [r.stats], acc.2.2.1 ++ r.upserts, acc.2.2.2 ++ r.diagnostics)

/-- The `players[:max_players]` truncation of `backfill_season`, guarded by
Python truthiness (`if max_players:` — a zero or absent cap keeps the whole
list). -/
def truncatePlayers (players : List Player) : Option Nat → List Player
  | some m => if m ≠ 0 then players.take m else players
  | none => players

/-- `backfill_season(season_key, max_players)`: reject an unknown season key
(report, return) before touching the roster; fetch the roster and abort with a
report when it comes back empty; truncate to `max_players` when that argument
is truthy (Python `if max_players:` — a zero cap does not truncate); then loop
over the players accumulating totals. -/
def backfill_season (env : SeasonEnv) (season_key : String)
    (max_players : Option Nat) : SeasonResult :=
  match seasonLookup season_key with
  | none =>
      { totals := none, roster_fetches := 0, per_player := [], upserts := [],
        diagnostics := ["invalid season: " ++ season_key] }
  | some info =>
      let pl := get_league_players env.rosterResult
      if pl.1.isEmpty then
        { totals := none, roster_fetches := 1, per_player := [], upserts := [],
          diagnostics := pl.2 ++ ["cannot fetch player list"] }
      else
        let players := truncatePlayers pl.1 max_players
        let init0 : SeasonTotals :=
          { total_players := players.length, processed_players := 0,
            total_new_games := 0, total_api_calls := 0, total_errors := 0 }
        let r := players.foldl (processPlayer env info) (init0, [], [], [])
        { totals := some r.1, roster_fetches := 1, per_player := r.2.1,
          upserts := r.2.2.1, diagnostics := pl.2 ++ r.2.2.2 }

/-! ## Helper lemmas -/

theorem rat_floor_eq_intFloor (q : Rat) : q.floor = ⌊q⌋ := rfl

/-- The while loop produces the consecutive days from `c` to `⌊endD⌋`. -/
theorem dateLoop_eq (c : Int) (e : Rat) :
    dateLoop c e =
      (List.range (e.floor + 1 - c).toNat).map (fun i : Nat => c + (i : Int)) := by
  generalize hn : (e.floor + 1 - c).toNat = n
  induction n generalizing c with
  | zero =>
      have hlt : ¬ ((c : Rat) ≤ e) := by
        intro h
        have := Rat.le_floor.mpr h
        omega
      rw [dateLoop, dif_neg hlt]
      simp
  | succ m ih =>
      have hc : c ≤ e.floor := by omega
      have h : (c : Rat) ≤ e := Rat.le_floor.mp hc
      have hm : (e.floor + 1 - (c + 1)).toNat = m := by omega
      rw [dateLoop, dif_pos h, ih (c + 1) hm, List.range_succ_eq_map,
        List.map_cons, List.map_map]
      refine congrArg₂ List.cons (by simp) (List.map_congr_left ?_)
      intro i _
      simp only [Function.comp_apply]
      push_cast
      ring

/-- `dateRange` is the consecutive days from the start date to
`min end_date ⌊today⌋`. -/
theorem dateRange_eq_range (s e : Int) (t : Rat) :
    dateRange s e t =
      (List.range (min e t.floor + 1 - s).toNat).map (fun i : Nat => s + (i : Int)) := by
  unfold dateRange
  rw [dateLoop_eq]
  have hfloor : (if (e : Rat) > t then t else (e : Rat)).floor = min e t.floor := by
    split
    case isTrue h =>
      have h1 : t.floor ≤ e := by
        have h2 : (t.floor : Rat) ≤ t := by
          rw [rat_floor_eq_intFloor]
          exact Int.floor_le t
        have h3 : (t.floor : Rat) < (e : Rat) := lt_of_le_of_lt h2 h
        exact_mod_cast h3.le
      omega
    case isFalse h =>
      have h1 : e ≤ t.floor := Rat.le_floor.mpr (not_lt.mp h)
      have h2 : ((e : Int) : Rat).floor = e := by
        rw [rat_floor_eq_intFloor]
        exact Int.floor_intCast e
      omega
  rw [hfloor]

theorem range_map_head (f : Nat → Int) (m : Nat) :
    ((List.range (m + 1)).map f).head? = some (f 0) := by
  rw [List.range_succ_eq_map]
  simp

theorem range_map_getLast (f : Nat → Int) (m : Nat) :
    ((List.range (m + 1)).map f).getLast? = some (f m) := by
  rw [List.range_succ]
  simp

/-- One candidate date ended in a persistence error: the fetcher returned a
record and the store upsert failed. -/
def persistFailed (env : PlayerEnv) (player_key player_name : String)
    (d : Int) : Bool :=
  match get_player_stats_by_date env.fetch player_key d with
  | some gl => !(save_game_log env.upsertOk player_key player_name gl).1
  | none => false

/-- Counter bookkeeping of the per-date loop: total/existing are untouched,
api_calls grows by one per date, errors counts the persistence failures, and
new_games + errors counts the dates with a fetched record. -/
theorem foldl_processDate_inv (env : PlayerEnv) (player_key player_name : String)
    (ds : List Int) (acc : BatchStats × List UpsertRow) :
    ((ds.foldl (processDate env player_key player_name) acc).1.total_dates
        = acc.1.total_dates)
    ∧ ((ds.foldl (processDate env player_key player_name) acc).1.existing_games
        = acc.1.existing_games)
    ∧ ((ds.foldl (processDate env player_key player_name) acc).1.api_calls
        = acc.1.api_calls + ds.length)
    ∧ ((ds.foldl (processDate env player_key player_name) acc).1.errors
        = acc.1.errors + ds.countP (persistFailed env player_key player_name))
    ∧ ((ds.foldl (processDate env player_key player_name) acc).1.new_games
          + (ds.foldl (processDate env player_key player_name) acc).1.errors
        = acc.1.new_games + acc.1.errors
          + ds.countP
              (fun d => (get_player_stats_by_date env.fetch player_key d).isSome)) := by
  induction ds generalizing acc with
  | nil => simp
  | cons d ds ih =>
      simp only [List.foldl_cons, List.countP_cons]
      obtain ⟨ih1, ih2, ih3, ih4, ih5⟩ := ih (processDate env player_key player_name acc d)
      rcases hg : get_player_stats_by_date env.fetch player_key d with _ | gl
      · have hp : persistFailed env player_key player_name d = false := by
          simp [persistFailed, hg]
        simp only [processDate, hg] at ih1 ih2 ih3 ih4 ih5
        simp only [processDate, hg, ih1, ih2, ih3, ih4, ih5, hp, hg]
        simp
        omega
      · rcases hs : (save_game_log env.upsertOk player_key player_name gl).1 with _ | _
        · have hp : persistFailed env player_key player_name d = true := by
            simp [persistFailed, hg, hs]
          simp only [processDate, hg, hs] at ih1 ih2 ih3 ih4 ih5
          simp only [processDate, hg, hs, Bool.false_eq_true, if_false] at *
          simp only [ih1, ih2, ih3, ih4, ih5, hp, hg]
          simp
          omega
        · have hp : persistFailed env player_key player_name d = false := by
            simp [persistFailed, hg, hs]
          simp only [processDate, hg, hs, if_true] at ih1 ih2 ih3 ih4 ih5
          simp only [processDate, hg, hs, if_true, ih1, ih2, ih3, ih4, ih5, hp]
          simp
          omega

/-! ## Claim theorems -/

/-- C6: for all dates start ≤ end and any now, date-range generation yields
exactly (min(end, now's date) − start + 1) consecutive calendar dates; when
start ≤ the clamped end the first is start and the last is the clamped end,
which is end itself when end ≤ now and now's date when end > now; when start
is after the clamped end the sequence is empty. -/
theorem dateRange_spec (start_date end_date : Int) (today : Rat)
    (h : start_date ≤ end_date) :
    dateRange start_date end_date today =
      (List.range (min end_date today.floor + 1 - start_date).toNat).map
        (fun i : Nat => start_date + (i : Int))
    ∧ (dateRange start_date end_date today).length =
        (min end_date today.floor + 1 - start_date).toNat
    ∧ (start_date ≤ min end_date today.floor →
        (dateRange start_date end_date today).head? = some start_date
        ∧ (dateRange start_date end_date today).getLast? =
            some (min end_date today.floor))
    ∧ (min end_date today.floor < start_date →
        dateRange start_date end_date today = [])
    ∧ ((end_date : Rat) ≤ today → min end_date today.floor = end_date)
    ∧ (today < (end_date : Rat) → min end_date today.floor = today.floor) := by
  refine ⟨dateRange_eq_range _ _ _, ?_, ?_, ?_, ?_, ?_⟩
  · rw [dateRange_eq_range]
    simp
  · intro hs
    have hn : (min end_date today.floor + 1 - start_date).toNat ≠ 0 := by omega
    obtain ⟨m, hm⟩ : ∃ m, (min end_date today.floor + 1 - start_date).toNat = m + 1 :=
      ⟨(min end_date today.floor + 1 - start_date).toNat - 1, by omega⟩
    constructor
    · rw [dateRange_eq_range, hm, range_map_head]
      simp
    · rw [dateRange_eq_range, hm, range_map_getLast, Option.some.injEq]
      omega
  · intro hs
    rw [dateRange_eq_range]
    have : (min end_date today.floor + 1 - start_date).toNat = 0 := by omega
    simp [this]
  · intro he
    have : end_date ≤ today.floor := Rat.le_floor.mpr he
    omega
  · intro he
    have h2 : (today.floor : Rat) ≤ today := by
      rw [rat_floor_eq_intFloor]
      exact Int.floor_le today
    have h3 : (today.floor : Rat) < (end_date : Rat) := lt_of_le_of_lt h2 he
    have : today.floor ≤ end_date := by exact_mod_cast h3.le
    omega

/-- Witness for C6 at start day 0, end day 5, now 5/2 (clamped to day 2). -/
theorem dateRange_spec_witness :
    (0 : Int) ≤ 5
    ∧ (dateRange 0 5 (mkRat 5 2) =
        (List.range (min 5 (mkRat 5 2).floor + 1 - 0).toNat).map
          (fun i : Nat => 0 + (i : Int))
      ∧ (dateRange 0 5 (mkRat 5 2)).length
          = (min 5 (mkRat 5 2).floor + 1 - 0).toNat
      ∧ ((0 : Int) ≤ min 5 (mkRat 5 2).floor →
          (dateRange 0 5 (mkRat 5 2)).head? = some 0
          ∧ (dateRange 0 5 (mkRat 5 2)).getLast?
              = some (min 5 (mkRat 5 2).floor))
      ∧ (min 5 (mkRat 5 2).floor < 0 → dateRange 0 5 (mkRat 5 2) = [])
      ∧ (((5 : Int) : Rat) ≤ mkRat 5 2 → min 5 (mkRat 5 2).floor = 5)
      ∧ (mkRat 5 2 < ((5 : Int) : Rat) →
          min 5 (mkRat 5 2).floor = (mkRat 5 2).floor)) :=
  ⟨by decide, dateRange_spec 0 5 (mkRat 5 2) (by decide)⟩

/-- C1: a record is returned iff at least one coerced stat value is strictly
positive; a returned record carries has_game = true, the input date, the
coerced stat mapping, and minutes_played = the mapping's value at stat id "3"
(unset when absent); with no strictly positive coerced value, nothing is
returned. -/
theorem get_player_stats_spec (fetch : String → Int → FetchResult)
    (player_key : String) (date : Int) :
    ((get_player_stats_by_date fetch player_key date).isSome ↔
      ∃ p ∈ statsDictOf (fetch player_key date), p.2.isPos = true)
    ∧ (∀ r : GameLog, get_player_stats_by_date fetch player_key date = some r →
        r.has_game = true ∧ r.date = date
        ∧ r.stats = statsDictOf (fetch player_key date)
        ∧ r.minutes_played = dictGet (statsDictOf (fetch player_key date)) "3") := by
  cases hf : fetch player_key date with
  | raises => simp [get_player_stats_by_date, statsDictOf, hf]
  | noPayload => simp [get_player_stats_by_date, statsDictOf, hf]
  | payloadNoStats => simp [get_player_stats_by_date, statsDictOf, hf, finishRecord]
  | payload entries =>
      simp only [get_player_stats_by_date, statsDictOf, hf, finishRecord]
      by_cases hg : (buildStatsDict entries).any (fun p => p.2.isPos) = true
      · rw [if_pos hg]
        constructor
        · simp only [Option.isSome_some, true_iff]
          exact List.any_eq_true.mp hg
        · rintro r hr
          cases hr
          exact ⟨rfl, rfl, rfl, rfl⟩
      · rw [if_neg hg]
        constructor
        · simp only [Option.isSome_none, Bool.false_eq_true, false_iff]
          intro hex
          exact hg (List.any_eq_true.mpr hex)
        · simp

/-- A remote payload with a positive minutes stat, used to instantiate the
fetcher claims. -/
def fetchGame : String → Int → FetchResult :=
  fun _ _ => .payload [("3", "34"), ("0", "10")]

/-- The record the fetcher builds from `fetchGame`. -/
def gameRec123 : GameLog :=
  { date := 0, stats := [("3", NumVal.intVal 34), ("0", NumVal.intVal 10)],
    minutes_played := some (NumVal.intVal 34), has_game := true }

/-- Witness for C1 on a concrete payload. -/
theorem get_player_stats_spec_witness :
    get_player_stats_by_date fetchGame "nba.p.123" 0 = some gameRec123
    ∧ (gameRec123.has_game = true ∧ gameRec123.date = 0
        ∧ gameRec123.stats = statsDictOf (fetchGame "nba.p.123" 0)
        ∧ gameRec123.minutes_played =
            dictGet (statsDictOf (fetchGame "nba.p.123" 0)) "3") :=
  ⟨by decide, (get_player_stats_spec fetchGame "nba.p.123" 0).2 gameRec123 (by decide)⟩

/-- C2: numeric coercion parses the text as floating point when it contains a
decimal point and as integer otherwise; an entry whose value fails coercion is
dropped from the mapping silently and the remaining entries are still
processed; "12.5" coerces to the float 12.5, "8" to the int 8, and "DNP" is
dropped. -/
theorem coerceStat_spec :
    (∀ v : String, pyContains v '.' = true →
        coerceStat v = (pyFloat v).map NumVal.floatVal)
    ∧ (∀ v : String, pyContains v '.' = false →
        coerceStat v = (pyInt v).map NumVal.intVal)
    ∧ (∀ (pre post : List (String × String)) (k v : String),
        coerceStat v = none →
          buildStatsDict (pre ++ (k, v) :: post) = buildStatsDict (pre ++ post))
    ∧ coerceStat "12.5" = some (NumVal.floatVal (mkRat 25 2))
    ∧ coerceStat "8" = some (NumVal.intVal 8)
    ∧ coerceStat "DNP" = none := by
  refine ⟨?_, ?_, ?_, by decide, by decide, by decide⟩
  · intro v hv
    simp [coerceStat, hv]
  · intro v hv
    simp [coerceStat, hv]
  · intro pre post k v hv
    simp [buildStatsDict, List.foldl_append, hv]

/-- Witness for C2: a failed coercion in the middle of a payload drops that
entry and leaves the rest of the mapping intact. -/
theorem coerceStat_spec_witness :
    coerceStat "DNP" = none
    ∧ buildStatsDict ([("0", "1")] ++ ("9", "DNP") :: [("5", "2")]) =
        buildStatsDict ([("0", "1")] ++ [("5", "2")]) :=
  ⟨by decide, (coerceStat_spec).2.2.1 [("0", "1")] [("5", "2")] "9" "DNP" (by decide)⟩

/-- C3: the stats fetcher never propagates an exception: a raised remote call
or a missing stats payload yields no result instead. -/
theorem fetch_failure_silent (fetch : String → Int → FetchResult)
    (player_key : String) (date : Int) :
    (fetch player_key date = .raises →
        get_player_stats_by_date fetch player_key date = none)
    ∧ (fetch player_key date = .noPayload →
        get_player_stats_by_date fetch player_key date = none) := by
  constructor <;> intro h <;> simp [get_player_stats_by_date, h]

/-- A remote call that always raises. -/
def fetchRaises : String → Int → FetchResult := fun _ _ => .raises

/-- Witness for C3 on a raising remote call. -/
theorem fetch_failure_silent_witness :
    fetchRaises "nba.p.123" 0 = .raises
    ∧ get_player_stats_by_date fetchRaises "nba.p.123" 0 = none :=
  ⟨rfl, (fetch_failure_silent fetchRaises "nba.p.123" 0).1 rfl⟩

/-- C4: with skip_existing = true and existing-dates set E (a successful
query), the dates passed to the stats fetcher are exactly the generated date
sequence with the members of E removed, in the original order. -/
theorem skip_existing_filter (env : PlayerEnv) (player_key player_name : String)
    (start_date end_date : Int) (rows : List Int)
    (h : env.queryResult = .ok rows) :
    (backfill_player env player_key player_name start_date end_date
        true).fetched_dates
      = (dateRange start_date end_date env.today).filter
          (fun d => !(rows.contains d)) := by
  have hc : (dateRange start_date end_date env.today).filter
      (fun d => !(rows.dedup.contains d))
      = (dateRange start_date end_date env.today).filter
          (fun d => !(rows.contains d)) := by
    apply List.filter_congr
    intro d _
    simp [List.elem_iff]
  simp only [backfill_player, get_existing_dates, h, if_true]
  rw [hc]
  by_cases hz : ((dateRange start_date end_date env.today).filter
      (fun d => !(rows.contains d))).length = 0
  · rw [if_pos hz]
    exact (List.length_eq_zero.mp hz).symm
  · rw [if_neg hz]

/-- A store with day 1 already present, window day 0 .. day 2. -/
def envC4 : PlayerEnv :=
  { today := 2, queryResult := .ok [1], fetch := fun _ _ => .noPayload,
    upsertOk := fun _ => true }

/-- Witness for C4 at a store holding day 1. -/
theorem skip_existing_filter_witness :
    envC4.queryResult = .ok [1]
    ∧ (backfill_player envC4 "nba.p.123" "P" 0 2 true).fetched_dates
        = (dateRange 0 2 envC4.today).filter
            (fun d => !(([1] : List Int).contains d)) :=
  ⟨rfl, skip_existing_filter envC4 "nba.p.123" "P" 0 2 [1] rfl⟩

/-- A store with day 5 present, while the window generates only day 0. -/
def envC5 : PlayerEnv :=
  { today := 10, queryResult := .ok [5], fetch := fun _ _ => .noPayload,
    upsertOk := fun _ => true }

/-- C5 counterexample: with day 5 stored and the generated window consisting
of day 0 only, the code reports existing_games = 1 although zero generated
candidate dates were removed by the filtering, so existing_games is not the
size of the filtered-out set. -/
theorem existing_games_counterexample :
    (backfill_player envC5 "nba.p.123" "P" 0 0 true).stats.existing_games ≠
      ((dateRange 0 0 (10 : Rat)).filter
        (fun d => ([5] : List Int).contains d)).length := by
  have h1 : dateRange 0 0 (10 : Rat) = [0] := by
    rw [dateRange_eq_range]
    decide
  simp only [backfill_player, envC5, get_existing_dates, h1]
  decide

/-- C5 (amended): with skip_existing = true and a successful store query,
existing_games equals the size of the full set of dates stored for the entity
(it equals the filtered-out count only when every stored date lies inside the
generated range), and total_dates equals the number of candidate dates
remaining after the filtering. -/
theorem existing_games_amended (env : PlayerEnv) (player_key player_name : String)
    (start_date end_date : Int) (rows : List Int)
    (h : env.queryResult = .ok rows) :
    ((backfill_player env player_key player_name start_date end_date
        true).stats.existing_games = rows.dedup.length)
    ∧ ((backfill_player env player_key player_name start_date end_date
        true).stats.total_dates
      = ((dateRange start_date end_date env.today).filter
          (fun d => !(rows.contains d))).length) := by
  have hc : (dateRange start_date end_date env.today).filter
      (fun d => !(rows.dedup.contains d))
      = (dateRange start_date end_date env.today).filter
          (fun d => !(rows.contains d)) := by
    apply List.filter_congr
    intro d _
    simp [List.elem_iff]
  simp only [backfill_player, get_existing_dates, h, if_true]
  rw [hc]
  by_cases hz : ((dateRange start_date end_date env.today).filter
      (fun d => !(rows.contains d))).length = 0
  · rw [if_pos hz]
    exact ⟨rfl, rfl⟩
  · rw [if_neg hz]
    have hinv := foldl_processDate_inv env player_key player_name
      ((dateRange start_date end_date env.today).filter
        (fun d => !(rows.contains d)))
      ({ player_key := player_key, player_name := player_name,
         total_dates := ((dateRange start_date end_date env.today).filter
           (fun d => !(rows.contains d))).length,
         existing_games := rows.dedup.length,
         new_games := 0, api_calls := 0, errors := 0 }, [])
    exact ⟨hinv.2.1, hinv.1⟩

/-- Witness for C5 (amended) on the day-5-stored environment. -/
theorem existing_games_amended_witness :
    envC5.queryResult = .ok [5]
    ∧ (((backfill_player envC5 "nba.p.123" "P" 0 0 true).stats.existing_games
          = ([5] : List Int).dedup.length)
        ∧ ((backfill_player envC5 "nba.p.123" "P" 0 0 true).stats.total_dates
          = ((dateRange 0 0 envC5.today).filter
              (fun d => !(([5] : List Int).contains d))).length)) :=
  ⟨rfl, existing_games_amended envC5 "nba.p.123" "P" 0 0 [5] rfl⟩

/-- C7: on a stored-dates query failure, the existing-record filter returns
the empty set and surfaces a diagnostic, and the per-entity run continues —
it behaves exactly as if nothing were stored. -/
theorem query_failure_fail_open (env : PlayerEnv) (player_key player_name : String)
    (start_date end_date : Int) (msg : String)
    (h : env.queryResult = .error msg) :
    ((get_existing_dates env.queryResult).1 = [])
    ∧ ((get_existing_dates env.queryResult).2
        = ["existing-data query failed: " ++ msg])
    ∧ ((backfill_player env player_key player_name start_date end_date
          true).stats
        = (backfill_player { env with queryResult := .ok [] }
            player_key player_name start_date end_date true).stats)
    ∧ ((backfill_player env player_key player_name start_date end_date
          true).fetched_dates
        = (backfill_player { env with queryResult := .ok [] }
            player_key player_name start_date end_date true).fetched_dates)
    ∧ ((backfill_player env player_key player_name start_date end_date
          true).upserts
        = (backfill_player { env with queryResult := .ok [] }
            player_key player_name start_date end_date true).upserts) := by
  have hpd : processDate { env with queryResult := Except.ok [] }
      player_key player_name = processDate env player_key player_name := rfl
  refine ⟨by simp [get_existing_dates, h], by simp [get_existing_dates, h],
    ?_, ?_, ?_⟩ <;>
  · simp [backfill_player, get_existing_dates, h, hpd]
    split <;> rfl

/-- A failing stored-dates query. -/
def envC7 : PlayerEnv :=
  { today := 2, queryResult := .error "boom", fetch := fun _ _ => .noPayload,
    upsertOk := fun _ => true }

/-- Witness for C7 on a failing query. -/
theorem query_failure_fail_open_witness :
    envC7.queryResult = .error "boom"
    ∧ (((get_existing_dates envC7.queryResult).1 = [])
      ∧ ((get_existing_dates envC7.queryResult).2
          = ["existing-data query failed: " ++ "boom"])
      ∧ ((backfill_player envC7 "nba.p.123" "P" 0 2 true).stats
          = (backfill_player { envC7 with queryResult := .ok [] }
              "nba.p.123" "P" 0 2 true).stats)
      ∧ ((backfill_player envC7 "nba.p.123" "P" 0 2 true).fetched_dates
          = (backfill_player { envC7 with queryResult := .ok [] }
              "nba.p.123" "P" 0 2 true).fetched_dates)
      ∧ ((backfill_player envC7 "nba.p.123" "P" 0 2 true).upserts
          = (backfill_player { envC7 with queryResult := .ok [] }
              "nba.p.123" "P" 0 2 true).upserts)) :=
  ⟨rfl, query_failure_fail_open envC7 "nba.p.123" "P" 0 2 "boom" rfl⟩

/-- C8: a season run invoked with an unrecognized season label reports the
error and aborts only that invocation: no entities processed, zero roster
fetches, zero persistence calls. -/
theorem unknown_season_aborts (env : SeasonEnv) (season_key : String)
    (max_players : Option Nat) (h : seasonLookup season_key = none) :
    backfill_season env season_key max_players =
      { totals := none, roster_fetches := 0, per_player := [], upserts := [],
        diagnostics := ["invalid season: " ++ season_key] } := by
  simp [backfill_season, h]

/-- A quiet season environment for instantiating season-level claims. -/
def envSeason0 : SeasonEnv :=
  { today := 0, rosterResult := .ok [], queryResult := fun _ => .ok [],
    fetch := fun _ _ => .noPayload, upsertOk := fun _ => true }

/-- Witness for C8 at the label "2022-23", absent from the season table. -/
theorem unknown_season_aborts_witness :
    seasonLookup "2022-23" = none
    ∧ backfill_season envSeason0 "2022-23" none =
        { totals := none, roster_fetches := 0, per_player := [], upserts := [],
          diagnostics := ["invalid season: " ++ "2022-23"] } :=
  ⟨by decide, unknown_season_aborts envSeason0 "2022-23" none (by decide)⟩

/-- The per-date loop starting from zeroed progress counters satisfies the
BatchStats invariants. -/
theorem loop_stats_inv (env : PlayerEnv) (pk pn : String) (L : List Int)
    (st : BatchStats) (acc2 : List UpsertRow) (hT : st.total_dates = L.length)
    (hn : st.new_games = 0) (ha : st.api_calls = 0) (he : st.errors = 0) :
    ((L.foldl (processDate env pk pn) (st, acc2)).1.api_calls
      = (L.foldl (processDate env pk pn) (st, acc2)).1.total_dates)
    ∧ ((L.foldl (processDate env pk pn) (st, acc2)).1.new_games
          + (L.foldl (processDate env pk pn) (st, acc2)).1.errors
        ≤ (L.foldl (processDate env pk pn) (st, acc2)).1.api_calls)
    ∧ ((L.foldl (processDate env pk pn) (st, acc2)).1.errors
        = L.countP (persistFailed env pk pn))
    ∧ ((L.foldl (processDate env pk pn) (st, acc2)).1.total_dates
        = L.length) := by
  obtain ⟨h1, h2, h3, h4, h5⟩ := foldl_processDate_inv env pk pn L (st, acc2)
  dsimp only at h1 h2 h3 h4 h5
  have hcount : L.countP
      (fun d => (get_player_stats_by_date env.fetch pk d).isSome) ≤ L.length :=
    List.countP_le_length _
  refine ⟨?_, ?_, ?_, ?_⟩
  · rw [h3, h1, hT, ha]
    omega
  · omega
  · rw [h4, he]
    simp
  · rw [h1, hT]

/-- C10: per-entity BatchStats invariants: api_calls = total_dates (one API
call per post-filter candidate date, no-game dates included); new_games +
errors ≤ api_calls; errors counts exactly the fetched dates whose record
failed to persist; an empty post-filter list yields api_calls = new_games =
errors = 0. -/
theorem batch_stats_invariants (env : PlayerEnv)
    (player_key player_name : String) (start_date end_date : Int)
    (skip_existing : Bool) :
    ((backfill_player env player_key player_name start_date end_date
        skip_existing).stats.api_calls
      = (backfill_player env player_key player_name start_date end_date
          skip_existing).stats.total_dates)
    ∧ ((backfill_player env player_key player_name start_date end_date
          skip_existing).stats.new_games
        + (backfill_player env player_key player_name start_date end_date
            skip_existing).stats.errors
      ≤ (backfill_player env player_key player_name start_date end_date
          skip_existing).stats.api_calls)
    ∧ ((backfill_player env player_key player_name start_date end_date
          skip_existing).stats.errors
      = (backfill_player env player_key player_name start_date end_date
          skip_existing).fetched_dates.countP
            (persistFailed env player_key player_name))
    ∧ ((backfill_player env player_key player_name start_date end_date
          skip_existing).stats.total_dates = 0 →
        (backfill_player env player_key player_name start_date end_date
            skip_existing).stats.api_calls = 0
        ∧ (backfill_player env player_key player_name start_date end_date
            skip_existing).stats.new_games = 0
        ∧ (backfill_player env player_key player_name start_date end_date
            skip_existing).stats.errors = 0) := by
  simp only [backfill_player]
  split <;> split <;> rename_i h0
  · exact ⟨h0.symm, by simp, by simp, fun _ => ⟨rfl, rfl, rfl⟩⟩
  · exact ⟨(loop_stats_inv env player_key player_name _ _ [] rfl rfl rfl rfl).1,
      (loop_stats_inv env player_key player_name _ _ [] rfl rfl rfl rfl).2.1,
      (loop_stats_inv env player_key player_name _ _ [] rfl rfl rfl rfl).2.2.1,
      fun htd => absurd
        (((loop_stats_inv env player_key player_name _ _ []
            rfl rfl rfl rfl).2.2.2).symm.trans htd) h0⟩
  · exact ⟨h0.symm, by simp, by simp, fun _ => ⟨rfl, rfl, rfl⟩⟩
  · exact ⟨(loop_stats_inv env player_key player_name _ _ [] rfl rfl rfl rfl).1,
      (loop_stats_inv env player_key player_name _ _ [] rfl rfl rfl rfl).2.1,
      (loop_stats_inv env player_key player_name _ _ [] rfl rfl rfl rfl).2.2.1,
      fun htd => absurd
        (((loop_stats_inv env player_key player_name _ _ []
            rfl rfl rfl rfl).2.2.2).symm.trans htd) h0⟩

/-- Witness for C10: an inverted window (start after end) gives an empty
candidate list and all-zero progress counters. -/
theorem batch_stats_invariants_witness :
    (backfill_player envC4 "nba.p.123" "P" 1 0 true).stats.total_dates = 0
    ∧ ((backfill_player envC4 "nba.p.123" "P" 1 0 true).stats.api_calls = 0
      ∧ (backfill_player envC4 "nba.p.123" "P" 1 0 true).stats.new_games = 0
      ∧ (backfill_player envC4 "nba.p.123" "P" 1 0 true).stats.errors = 0) := by
  have h1 : dateRange 1 0 (2 : Rat) = [] := by
    rw [dateRange_eq_range]
    decide
  have htd : (backfill_player envC4 "nba.p.123" "P" 1 0 true).stats.total_dates
      = 0 := by
    simp only [backfill_player, envC4, get_existing_dates, h1]
    decide
  exact ⟨htd,
    (batch_stats_invariants envC4 "nba.p.123" "P" 1 0 true).2.2.2 htd⟩

/-- The per-entity counters a season run computes for one roster entry. -/
def playerStats (env : SeasonEnv) (info : SeasonInfo) (p : Player) : BatchStats :=
  (backfill_player (env.playerEnv p.player_key) p.player_key p.player_name
    info.startD info.endD true).stats

/-- Totals bookkeeping of the player loop: total_players is untouched,
processed_players grows by one per entity, the three summed counters grow by
each entity's new_games / api_calls / errors, and the per-player trace
appends each entity's counters. -/
theorem foldl_processPlayer_inv (env : SeasonEnv) (info : SeasonInfo)
    (ps : List Player)
    (acc : SeasonTotals × List BatchStats × List UpsertRow × List String) :
    ((ps.foldl (processPlayer env info) acc).1.total_players
        = acc.1.total_players)
    ∧ ((ps.foldl (processPlayer env info) acc).1.processed_players
        = acc.1.processed_players + ps.length)
    ∧ ((ps.foldl (processPlayer env info) acc).1.total_new_games
        = acc.1.total_new_games
          + (ps.map (fun p => (playerStats env info p).new_games)).sum)
    ∧ ((ps.foldl (processPlayer env info) acc).1.total_api_calls
        = acc.1.total_api_calls
          + (ps.map (fun p => (playerStats env info p).api_calls)).sum)
    ∧ ((ps.foldl (processPlayer env info) acc).1.total_errors
        = acc.1.total_errors
          + (ps.map (fun p => (playerStats env info p).errors)).sum)
    ∧ ((ps.foldl (processPlayer env info) acc).2.1
        = acc.2.1 ++ ps.map (playerStats env info)) := by
  induction ps generalizing acc with
  | nil => simp
  | cons p ps ih =>
      simp only [List.foldl_cons, List.map_cons, List.sum_cons, List.length_cons]
      obtain ⟨i1, i2, i3, i4, i5, i6⟩ := ih (processPlayer env info acc p)
      refine ⟨?_, ?_, ?_, ?_, ?_, ?_⟩
      · rw [i1]
        dsimp only [processPlayer]
      · rw [i2]
        dsimp only [processPlayer]
        omega
      · rw [i3]
        dsimp only [processPlayer, playerStats]
        omega
      · rw [i4]
        dsimp only [processPlayer, playerStats]
        omega
      · rw [i5]
        dsimp only [processPlayer, playerStats]
        omega
      · rw [i6]
        dsimp only [processPlayer, playerStats]
        simp

/-- C9 (amended): when a season run completes, the reported SeasonTotals sums
the new_games, api_calls and errors counters of the per-entity BatchStats over
all processed entities, plus the entity counts (total and processed, both
equal to the number of entities processed); the per-entity total_dates and
existing_games counters are not aggregated into it. -/
theorem season_totals_amended (env : SeasonEnv) (season_key : String)
    (max_players : Option Nat) (t : SeasonTotals)
    (h : (backfill_season env season_key max_players).totals = some t) :
    (t.total_new_games
      = ((backfill_season env season_key max_players).per_player.map
          (fun b => b.new_games)).sum)
    ∧ (t.total_api_calls
      = ((backfill_season env season_key max_players).per_player.map
          (fun b => b.api_calls)).sum)
    ∧ (t.total_errors
      = ((backfill_season env season_key max_players).per_player.map
          (fun b => b.errors)).sum)
    ∧ (t.processed_players
      = (backfill_season env season_key max_players).per_player.length)
    ∧ (t.total_players
      = (backfill_season env season_key max_players).per_player.length) := by
  rcases hk : seasonLookup season_key with _ | info
  · simp [backfill_season, hk] at h
  · simp only [backfill_season, hk] at h ⊢
    cases hemp : (get_league_players env.rosterResult).1.isEmpty with
    | true => simp [hemp] at h
    | false =>
        simp only [hemp, Bool.false_eq_true, if_false] at h ⊢
        generalize hP : truncatePlayers (get_league_players env.rosterResult).1
          max_players = players at h ⊢
        obtain ⟨j1, j2, j3, j4, j5, j6⟩ :=
          foldl_processPlayer_inv env info players
            ({ total_players := players.length, processed_players := 0,
               total_new_games := 0, total_api_calls := 0,
               total_errors := 0 }, [], [], [])
        rw [Option.some_inj] at h
        subst h
        rw [j1, j2, j3, j4, j5, j6]
        simp [List.map_map, Function.comp_def]

/-- One roster entry for the season-level examples. -/
def playerOne : Player :=
  { player_key := "k1", player_name := "P One", team := "UNK", positions := [] }

/-- A one-player season run on the 2024-25 window with nothing stored; the
clock stands at the season start, so exactly one date is generated. -/
def envSeasonA : SeasonEnv :=
  { today := ((daysFromCivil 2024 10 22 : Int) : Rat),
    rosterResult := .ok [playerOne], queryResult := fun _ => .ok [],
    fetch := fun _ _ => .noPayload, upsertOk := fun _ => true }

/-- The same run, but with day 0 (outside the window) already stored. -/
def envSeasonB : SeasonEnv :=
  { envSeasonA with queryResult := fun _ => .ok [0] }

/-- C9 counterexample: two season runs whose per-entity existing_games sums
differ (0 versus 1) report identical SeasonTotals, so SeasonTotals does not
sum every counter of the per-entity BatchStats. -/
theorem season_totals_counterexample :
    ((backfill_season envSeasonA "2024-25" none).totals =
      (backfill_season envSeasonB "2024-25" none).totals)
    ∧ (((backfill_season envSeasonA "2024-25" none).per_player.map
        (fun b => b.existing_games)).sum ≠
      ((backfill_season envSeasonB "2024-25" none).per_player.map
        (fun b => b.existing_games)).sum) := by
  have hk24 : seasonLookup "2024-25"
      = some ⟨daysFromCivil 2024 10 22, daysFromCivil 2025 6 17⟩ := by decide
  have hdr : dateRange (daysFromCivil 2024 10 22) (daysFromCivil 2025 6 17)
      ((daysFromCivil 2024 10 22 : Int) : Rat) = [daysFromCivil 2024 10 22] := by
    rw [dateRange_eq_range]
    decide
  constructor <;>
  · simp only [backfill_season, hk24, envSeasonA, envSeasonB,
      get_league_players, truncatePlayers, List.foldl_cons, List.foldl_nil,
      processPlayer, SeasonEnv.playerEnv, playerOne, backfill_player,
      get_existing_dates, hdr, processDate, get_player_stats_by_date]
    decide

/-- The totals the one-player 2024-25 run reports. -/
def totalsA : SeasonTotals :=
  { total_players := 1, processed_players := 1, total_new_games := 0,
    total_api_calls := 1, total_errors := 0 }

/-- Witness for C9 (amended) on the one-player season run. -/
theorem season_totals_amended_witness :
    (backfill_season envSeasonA "2024-25" none).totals = some totalsA
    ∧ ((totalsA.total_new_games
        = ((backfill_season envSeasonA "2024-25" none).per_player.map
            (fun b => b.new_games)).sum)
      ∧ (totalsA.total_api_calls
        = ((backfill_season envSeasonA "2024-25" none).per_player.map
            (fun b => b.api_calls)).sum)
      ∧ (totalsA.total_errors
        = ((backfill_season envSeasonA "2024-25" none).per_player.map
            (fun b => b.errors)).sum)
      ∧ (totalsA.processed_players
        = (backfill_season envSeasonA "2024-25" none).per_player.length)
      ∧ (totalsA.total_players
        = (backfill_season envSeasonA "2024-25" none).per_player.length)) := by
  have hk24 : seasonLookup "2024-25"
      = some ⟨daysFromCivil 2024 10 22, daysFromCivil 2025 6 17⟩ := by decide
  have hdr : dateRange (daysFromCivil 2024 10 22) (daysFromCivil 2025 6 17)
      ((daysFromCivil 2024 10 22 : Int) : Rat) = [daysFromCivil 2024 10 22] := by
    rw [dateRange_eq_range]
    decide
  have hA : (backfill_season envSeasonA "2024-25" none).totals = some totalsA := by
    simp only [backfill_season, hk24, envSeasonA, get_league_players,
      truncatePlayers, List.foldl_cons, List.foldl_nil, processPlayer,
      SeasonEnv.playerEnv, playerOne, backfill_player, get_existing_dates, hdr,
      processDate, get_player_stats_by_date]
    decide
  exact ⟨hA, season_totals_amended envSeasonA "2024-25" none totalsA hA⟩

end Backfill
